import Mathlib

/-!
Shallow embedding of `src/worker.ts` and `src/schema.ts` of GateOpenerWorker,
a Cloudflare Worker that authorizes gate commands signed by registered
public keys and relays HMAC-signed command envelopes to a gate endpoint.

Platform primitives (WebCrypto `crypto.subtle`, `Date.prototype.toISOString`,
`JSON.stringify`) are modelled as an injected `CryptoOracle` record of pure
functions; `TextEncoder.encode` and `btoa(String.fromCharCode(...bytes))`
are implemented concretely (UTF-8 and base64).  `Math.random()` is modelled
as an injected rational in `[0,1)` and the wall clock as epoch milliseconds.
TypeScript interfaces and enums are compile-time only: `request.json()`
performs no runtime validation, so the payload's `action` field is modelled
as a raw `String`.
-/

/-- The TypeScript `enum DoorAction` from worker.ts.  Its runtime values are
the strings returned by `DoorAction.str`; the enum exists only at the type
level and is erased before execution. -/
inductive DoorAction where
  | OPEN
  | STOP
  | CLOSE
deriving DecidableEq

/-- Runtime string value of a `DoorAction` enum member. -/
def DoorAction.str : DoorAction → String
  | .OPEN => "OPEN"
  | .STOP => "STOP"
  | .CLOSE => "CLOSE"

/-- Whether a runtime string is the value of some `DoorAction` member. -/
def isDoorAction (s : String) : Bool :=
  s == "OPEN" || s == "STOP" || s == "CLOSE"

/-- A row of the `public_keys` table (schema.ts `publicKeysTable`):
`id INTEGER PRIMARY KEY AUTOINCREMENT, key TEXT NOT NULL,
trusted INTEGER NOT NULL DEFAULT 0`. -/
structure PublicKeyRow where
  id : Nat
  key : String
  trusted : Nat
deriving DecidableEq

/-- The `public_keys` table contents, in row order. -/
abbrev PublicKeysTable := List PublicKeyRow

/-- worker.ts `toInt`: `value ? 1 : 0`. -/
def toInt (value : Bool) : Nat := if value then 1 else 0

/-- Runtime shape of the parsed `/gate` request body
(TS `interface DoorRequestPayload`).  `request.json()` does not validate,
so `action` is whatever string the caller sent. -/
structure DoorRequestPayload where
  signature : String
  action : String
  publicKey : String
deriving DecidableEq

/-- TS `interface JsonResponseBody`: `status: 'success' | 'failed'`,
optional `message` (extra record fields such as `key`/`keys`/`newKey`
are not modelled; no claim mentions them). -/
structure JsonResponseBody where
  status : String
  message : Option String
deriving DecidableEq

/-- A `Response` built by worker.ts `NewJsonResponse`: HTTP status plus
JSON body. -/
structure JsonResponse where
  status : Nat
  body : JsonResponseBody
deriving DecidableEq

/-- worker.ts `NewJsonResponse(status, body)`. -/
def NewJsonResponse (status : Nat) (body : JsonResponseBody) : JsonResponse :=
  { status := status, body := body }

/-- worker.ts `GetMethodNotAllowedResponse`. -/
def GetMethodNotAllowedResponse : JsonResponse :=
  NewJsonResponse 405 { status := "failed", message := some "Method Not Allowed" }

/-- worker.ts `GetUnauthorizedResponse`. -/
def GetUnauthorizedResponse : JsonResponse :=
  NewJsonResponse 401 { status := "failed", message := some "Unauthorized" }

/-- worker.ts `GetNotProductionResponse`. -/
def GetNotProductionResponse : JsonResponse :=
  NewJsonResponse 403 { status := "failed", message := some "Not allowed in production" }

/-- UTF-8 bytes of one character (`TextEncoder.encode`, per code point). -/
def utf8EncodeChar (c : Char) : List Nat :=
  let n := c.toNat
  if n < 128 then [n]
  else if n < 2048 then [192 + n / 64, 128 + n % 64]
  else if n < 65536 then [224 + n / 4096, 128 + n / 64 % 64, 128 + n % 64]
  else [240 + n / 262144, 128 + n / 4096 % 64, 128 + n / 64 % 64, 128 + n % 64]

/-- `new TextEncoder().encode(s)`: the UTF-8 bytes of `s`. -/
def utf8Encode (s : String) : List Nat :=
  (s.data.map utf8EncodeChar).flatten

/-- The base64 alphabet, as indexed by 6-bit values. -/
def base64Alphabet : List Char :=
  "ABCDEFGHIJKLMNOPQRSTUVWXYZabcdefghijklmnopqrstuvwxyz0123456789+/".data

/-- Character for a 6-bit group. -/
def base64Digit (n : Nat) : Char := base64Alphabet.getD n 'A'

/-- `btoa(String.fromCharCode(...bytes))`: standard base64 of a byte list. -/
def base64Encode : List Nat → String
  | [] => ""
  | [b1] =>
    String.mk [base64Digit (b1 / 4), base64Digit (b1 % 4 * 16), '=', '=']
  | [b1, b2] =>
    String.mk [base64Digit (b1 / 4), base64Digit (b1 % 4 * 16 + b2 / 16),
      base64Digit (b2 % 16 * 4), '=']
  | b1 :: b2 :: b3 :: rest =>
    String.mk [base64Digit (b1 / 4), base64Digit (b1 % 4 * 16 + b2 / 16),
      base64Digit (b2 % 16 * 4 + b3 / 64), base64Digit (b3 % 64)] ++
    base64Encode rest

/-- Handle to an imported RSA public key (`crypto.subtle.importKey('spki', ...)`
result), identified by the byte sequence it was imported from. -/
structure RsaKey where
  spki : List Nat
deriving DecidableEq

/-- worker.ts `Math.floor(Math.random() * 1000000000)`, with `Math.random()`
modelled as a rational `rand` in `[0,1)`. -/
def mintNonce (rand : ℚ) : ℤ := ⌊rand * 1000000000⌋

/-- JS `Date.prototype.getMinutes` on an epoch-millisecond timestamp
(UTC; Workers run with a UTC local time). -/
def jsGetMinutes (t : Nat) : Nat := t / 60000 % 60

/-- JS `Date.prototype.setMinutes m` on an epoch-millisecond timestamp:
replaces the minutes component, carrying overflow into the hour. -/
def jsSetMinutes (t : Nat) (m : Nat) : Nat :=
  t - t % 3600000 + m * 60000 + t % 60000

/-- The expiry timestamp minted by `SendToGate`:
`expiry.setMinutes(expiry.getMinutes() + 1)` applied to the current time. -/
def gateExpiryMs (nowMs : Nat) : Nat :=
  jsSetMinutes nowMs (jsGetMinutes nowMs + 1)

/-- TS `interface ValueToGate`: `action`, random `nonce`, ISO-8601 `expiry`. -/
structure ValueToGate where
  action : String
  nonce : ℤ
  expiry : String
deriving DecidableEq

/-- TS `interface PayloadToGate`: the value plus its base64 HMAC. -/
structure PayloadToGate where
  value : ValueToGate
  signature : String
deriving DecidableEq

/-- Parameters of a `crypto.subtle.verify` invocation. -/
structure VerifyCall where
  algorithmName : String
  hash : String
  key : RsaKey
  signatureBytes : List Nat
  messageBytes : List Nat
deriving DecidableEq

/-- Injected platform primitives: WebCrypto, `Date.toISOString`,
`JSON.stringify` of a `ValueToGate`.  `importKeySpki` returns `none` when
the bytes are not a decodable SPKI public key, modelling the `DataError`
exception `crypto.subtle.importKey` throws in that case; `verify` is total
(WebCrypto signature verification returns `false`, it does not throw, for a
mismatching or malformed signature blob). -/
structure CryptoOracle where
  importKeySpki : List Nat → Option RsaKey
  verify : VerifyCall → Bool
  hmacSha256Sign : List Nat → List Nat → List Nat
  toISOString : Nat → String
  jsonStringifyValue : ValueToGate → String

/-- TS `interface Env` (the D1 database binding is passed separately as a
`PublicKeysTable`). -/
structure Env where
  ENVIRONMENT : String
  GATE_HMAC_KEY : String
  GATE_URL : String

/-- The downstream `fetch` response from the gate endpoint. -/
structure DownstreamResponse where
  status : Nat
  body : String
deriving DecidableEq

/-- Fetch-spec `Response.ok`: status in the range 200..299. -/
def DownstreamResponse.ok (d : DownstreamResponse) : Bool :=
  200 ≤ d.status && d.status ≤ 299

/-- A `Response` value returned by the worker to its caller: either a JSON
response the worker minted itself, or the downstream gate response object
passed through unmodified. -/
inductive WorkerResponse where
  | minted (r : JsonResponse)
  | passthrough (d : DownstreamResponse)
deriving DecidableEq

/-- The `ValueToGate` literal built inside `SendToGate`:
`{ action, expiry: expiry.toISOString(), nonce: Math.floor(Math.random() * 1000000000) }`. -/
def mintValue (o : CryptoOracle) (action : String) (nowMs : Nat) (rand : ℚ) :
    ValueToGate :=
  { action := action
    expiry := o.toISOString (gateExpiryMs nowMs)
    nonce := mintNonce rand }

/-- Result of `SendToGate`: the response returned to the caller and the list
of payloads POSTed to `env.GATE_URL` during the call. -/
structure SendOutcome where
  response : WorkerResponse
  dispatched : List PayloadToGate
deriving DecidableEq

/-- worker.ts `SendToGate(action, env)`: mint a value with a fresh nonce and
a one-minute expiry, HMAC-SHA256-sign its JSON serialization with
`env.GATE_HMAC_KEY`, POST the payload to `env.GATE_URL` once, and return an
acknowledgment on `response.ok`, else the downstream response itself. -/
def SendToGate (o : CryptoOracle) (env : Env) (action : String) (nowMs : Nat)
    (rand : ℚ) (downstream : DownstreamResponse) : SendOutcome :=
  let value := mintValue o action nowMs rand
  let signatureBinarys :=
    o.hmacSha256Sign (utf8Encode env.GATE_HMAC_KEY)
      (utf8Encode (o.jsonStringifyValue value))
  let payload : PayloadToGate :=
    { value := value, signature := base64Encode signatureBinarys }
  { response :=
      if downstream.ok then
        .minted (NewJsonResponse 200
          { status := "success"
            message := some ("Gate action " ++ action ++ " sent successfully") })
      else .passthrough downstream
    dispatched := [payload] }

/-- The drizzle query in `GateHandler`:
`findFirst` with `and(eq(trusted, toInt(true)), eq(key, publicKey))` —
the first row whose `trusted` column equals 1 and whose `key` column equals
the request's `publicKey`. -/
def findFirstTrusted (table : PublicKeysTable) (pk : String) :
    Option PublicKeyRow :=
  table.find? (fun r => r.trusted == toInt true && r.key == pk)

/-- Outcome of a `GateHandler` invocation: a returned response together with
the outbound gate dispatches it caused, or an uncaught exception
propagating out of the handler (rejected promise). -/
inductive HandlerOutcome where
  | returned (resp : WorkerResponse) (dispatched : List PayloadToGate)
  | thrownFault
deriving DecidableEq

/-- The outbound gate dispatches an outcome caused. -/
def HandlerOutcome.dispatches : HandlerOutcome → List PayloadToGate
  | .returned _ ds => ds
  | .thrownFault => []

/-- The `crypto.subtle.verify` call made by `GateHandler` once a key handle
is imported: algorithm `RSASSA-PKCS1-v1_5` (the key imported with hash
`SHA-256`), signature bytes `encoder.encode(requestPayload.signature)`,
message bytes `encoder.encode(requestPayload.action)`. -/
def gateVerifyCall (p : DoorRequestPayload) (k : RsaKey) : VerifyCall :=
  { algorithmName := "RSASSA-PKCS1-v1_5"
    hash := "SHA-256"
    key := k
    signatureBytes := utf8Encode p.signature
    messageBytes := utf8Encode p.action }

/-- worker.ts `GateHandler`: look the request's `publicKey` up among trusted
rows; on no match return 401.  Otherwise import the UTF-8 bytes of
`publicKey` as an SPKI RSASSA-PKCS1-v1_5/SHA-256 key (an undecodable key
throws, uncaught), verify the signature over the UTF-8 bytes of `action`,
return 401 on failure, else call `SendToGate`. -/
def GateHandler (o : CryptoOracle) (env : Env) (table : PublicKeysTable)
    (p : DoorRequestPayload) (nowMs : Nat) (rand : ℚ)
    (downstream : DownstreamResponse) : HandlerOutcome :=
  match findFirstTrusted table p.publicKey with
  | none => .returned (.minted GetUnauthorizedResponse) []
  | some _ =>
    match o.importKeySpki (utf8Encode p.publicKey) with
    | none => .thrownFault
    | some recivedKey =>
      if o.verify (gateVerifyCall p recivedKey) then
        let s := SendToGate o env p.action nowMs rand downstream
        .returned s.response s.dispatched
      else
        .returned (.minted GetUnauthorizedResponse) []

/-- TS `interface KeyStore`: the JSON body of a PATCH `/publicKey` request. -/
structure KeyStore where
  key : String
  trusted : Bool
deriving DecidableEq

/-- worker.ts `PublicKeyPostHandler`: if the received key already exists,
409; otherwise insert a row `{ key, trusted: toInt(false) }` (with a fresh
autoincrement id) and return 200 "Key added". -/
def PublicKeyPostHandler (table : PublicKeysTable) (recivedKey : String)
    (freshId : Nat) : PublicKeysTable × JsonResponse :=
  match table.find? (fun r => r.key == recivedKey) with
  | some _ =>
    (table, NewJsonResponse 409 { status := "failed", message := some "Key already exists" })
  | none =>
    (table ++ [{ id := freshId, key := recivedKey, trusted := toInt false }],
     NewJsonResponse 200 { status := "success", message := some "Key added" })

/-- worker.ts `PublicKeyUpdateHandler`: unconditionally run
`UPDATE public_keys SET trusted = toInt(updateTo.trusted), key = updateTo.key
WHERE key = updateTo.key` and return 200 "Key updated" (no existence check). -/
def PublicKeyUpdateHandler (table : PublicKeysTable) (updateTo : KeyStore) :
    PublicKeysTable × JsonResponse :=
  (table.map (fun r =>
      if r.key == updateTo.key then
        { r with trusted := toInt updateTo.trusted, key := updateTo.key }
      else r),
   NewJsonResponse 200 { status := "success", message := some "Key updated" })

/-- What the router decides for a request: an immediate response, or which
handler it delegates to. -/
inductive RouteResult where
  | immediate (r : JsonResponse)
  | publicKeyPost
  | publicKeyGet
  | publicKeyDelete
  | publicKeyUpdate
  | tableCreate
  | gate
deriving DecidableEq

/-- worker.ts default `fetch`: routing by `pathname` and `request.method`,
with an `env.ENVIRONMENT !== 'DEVELOPMENT'` guard in front of GET, DELETE
and PATCH `/publicKey` and of `/table`, but not in front of POST
`/publicKey` or `/gate`. -/
def workerFetch (pathname method : String) (env : Env) : RouteResult :=
  if pathname = "/publicKey" then
    if method = "POST" then .publicKeyPost
    else if method = "GET" then
      if env.ENVIRONMENT ≠ "DEVELOPMENT" then .immediate GetNotProductionResponse
      else .publicKeyGet
    else if method = "DELETE" then
      if env.ENVIRONMENT ≠ "DEVELOPMENT" then .immediate GetNotProductionResponse
      else .publicKeyDelete
    else if method = "PATCH" then
      if env.ENVIRONMENT ≠ "DEVELOPMENT" then .immediate GetNotProductionResponse
      else .publicKeyUpdate
    else .immediate GetMethodNotAllowedResponse
  else if pathname = "/table" then
    if env.ENVIRONMENT ≠ "DEVELOPMENT" then .immediate GetNotProductionResponse
    else if method ≠ "PUT" then .immediate GetMethodNotAllowedResponse
    else .tableCreate
  else if pathname = "/gate" then
    if method ≠ "PATCH" then .immediate GetMethodNotAllowedResponse
    else .gate
  else .immediate (NewJsonResponse 404 { status := "failed", message := some "Not Found" })

/-! ## Concrete fixtures for witnesses and counterexamples -/

/-- An oracle where every byte sequence imports as a key and every
signature verifies; trivial HMAC/serialization stand-ins. -/
def oracleAllValid : CryptoOracle :=
  { importKeySpki := fun b => some { spki := b }
    verify := fun _ => true
    hmacSha256Sign := fun _ _ => []
    toISOString := fun _ => "1970-01-01T00:01:00.000Z"
    jsonStringifyValue := fun _ => "" }

/-- An oracle where keys import but no signature ever verifies. -/
def oracleRejectSig : CryptoOracle :=
  { importKeySpki := fun b => some { spki := b }
    verify := fun _ => false
    hmacSha256Sign := fun _ _ => []
    toISOString := fun _ => "1970-01-01T00:01:00.000Z"
    jsonStringifyValue := fun _ => "" }

/-- An oracle where no byte sequence decodes as an SPKI key:
`crypto.subtle.importKey` throws on every input. -/
def oracleMalformedKey : CryptoOracle :=
  { importKeySpki := fun _ => none
    verify := fun _ => false
    hmacSha256Sign := fun _ _ => []
    toISOString := fun _ => "1970-01-01T00:01:00.000Z"
    jsonStringifyValue := fun _ => "" }

/-- A sample environment record. -/
def envDemo : Env :=
  { ENVIRONMENT := "PRODUCTION", GATE_HMAC_KEY := "hmac-secret", GATE_URL := "https://gate.example" }

/-- A sample downstream 200 response. -/
def downstream200 : DownstreamResponse := { status := 200, body := "" }

/-! ## Helper lemmas -/

/-- If no row holds the looked-up key with `trusted = 1`, the drizzle
`findFirst` query returns no row. -/
theorem findFirstTrusted_eq_none (table : PublicKeysTable) (pk : String)
    (h : ∀ r ∈ table, r.key = pk → r.trusted ≠ toInt true) :
    findFirstTrusted table pk = none := by
  unfold findFirstTrusted
  rw [List.find?_eq_none]
  intro r hr hcontra
  simp only [Bool.and_eq_true, beq_iff_eq] at hcontra
  exact h r hr hcontra.2 hcontra.1

/-! ## Claims -/

/-- C1: for every inbound `/gate` PATCH request whose `publicKey` is absent
from the trust store or present only with `trusted = false` (the column
differing from `toInt true = 1`), `GateHandler` returns the generic 401
`{"status":"failed","message":"Unauthorized"}` response with no outbound
dispatch, regardless of the crypto oracle (hence of signature validity),
and both causes produce the identical outcome. -/
theorem C1_trust_failure_unauthorized (o : CryptoOracle) (env : Env)
    (table : PublicKeysTable) (p : DoorRequestPayload) (nowMs : Nat)
    (rand : ℚ) (d : DownstreamResponse)
    (h : ∀ r ∈ table, r.key = p.publicKey → r.trusted ≠ toInt true) :
    GateHandler o env table p nowMs rand d
      = .returned (.minted (NewJsonResponse 401
          { status := "failed", message := some "Unauthorized" })) [] := by
  unfold GateHandler
  rw [findFirstTrusted_eq_none table p.publicKey h]
  rfl

/-- Witness for C1: a request whose key is present but untrusted gets the
generic 401 even though the oracle verifies every signature. -/
theorem C1_witness :
    GateHandler oracleAllValid envDemo [{ id := 1, key := "pkA", trusted := 0 }]
        { signature := "sig", action := "OPEN", publicKey := "pkA" } 0 0 downstream200
      = .returned (.minted (NewJsonResponse 401
          { status := "failed", message := some "Unauthorized" })) [] :=
  C1_trust_failure_unauthorized oracleAllValid envDemo _ _ 0 0 downstream200 (by decide)

/-- C2: a `/gate` request that fails the trust lookup, or whose signature
does not verify at the key imported from the request's `publicKey` (as in
a signature made with a different private key than the one matching the
claimed public key), causes no outbound dispatch to the gate endpoint:
`SendToGate` is reached only after both the trust check and the signature
verification succeed, so the handler's dispatch list is empty in every
failure case (including an importKey fault). -/
theorem C2_no_dispatch_without_authorization (o : CryptoOracle) (env : Env)
    (table : PublicKeysTable) (p : DoorRequestPayload) (nowMs : Nat)
    (rand : ℚ) (d : DownstreamResponse)
    (h : findFirstTrusted table p.publicKey = none ∨
      ∀ k, o.importKeySpki (utf8Encode p.publicKey) = some k →
        o.verify (gateVerifyCall p k) = false) :
    (GateHandler o env table p nowMs rand d).dispatches = [] := by
  unfold GateHandler
  rcases h with hnone | hverify
  · rw [hnone]
    rfl
  · cases hfind : findFirstTrusted table p.publicKey with
    | none => rfl
    | some r =>
      cases himp : o.importKeySpki (utf8Encode p.publicKey) with
      | none => rfl
      | some k =>
        simp only [hverify k himp, Bool.false_eq_true, if_false]
        rfl

/-- Witness for C2: a trusted key whose signature fails verification causes
no outbound dispatch. -/
theorem C2_witness :
    (GateHandler oracleRejectSig envDemo [{ id := 1, key := "pkA", trusted := 1 }]
        { signature := "sig", action := "OPEN", publicKey := "pkA" } 0 0
        downstream200).dispatches = [] :=
  C2_no_dispatch_without_authorization oracleRejectSig envDemo _ _ 0 0 downstream200
    (Or.inr fun _ _ => rfl)

/-- C3 counterexample: with a trusted row for the presented key but key
bytes that cannot be decoded as SPKI (`importKeySpki` yields no key, i.e.
`crypto.subtle.importKey` throws), the handler does not return the generic
401 — the exception propagates out of `GateHandler` uncaught, because
the key import is not wrapped in any try/catch. -/
theorem C3_counterexample :
    GateHandler oracleMalformedKey envDemo [{ id := 1, key := "pkA", trusted := 1 }]
        { signature := "sig", action := "OPEN", publicKey := "pkA" } 0 0 downstream200
      = .thrownFault ∧
    HandlerOutcome.thrownFault
      ≠ .returned (.minted (NewJsonResponse 401
          { status := "failed", message := some "Unauthorized" })) [] := by
  exact ⟨rfl, by decide⟩

/-- C3 (amended): once the trust lookup has succeeded, a signature that
does not verify — including a signature blob that is malformed, which
WebCrypto's `verify` reports as `false` rather than throwing — yields the
same generic 401 as a cryptographic mismatch; but key bytes that cannot be
decoded as an SPKI public key make `crypto.subtle.importKey` throw, and the
handler propagates that fault uncaught instead of returning 401. -/
theorem C3_malformed_input_behavior (o : CryptoOracle) (env : Env)
    (table : PublicKeysTable) (p : DoorRequestPayload) (nowMs : Nat)
    (rand : ℚ) (d : DownstreamResponse) (r : PublicKeyRow) (k : RsaKey)
    (htrust : findFirstTrusted table p.publicKey = some r) :
    (o.importKeySpki (utf8Encode p.publicKey) = none →
      GateHandler o env table p nowMs rand d = .thrownFault) ∧
    (o.importKeySpki (utf8Encode p.publicKey) = some k →
      o.verify (gateVerifyCall p k) = false →
      GateHandler o env table p nowMs rand d
        = .returned (.minted (NewJsonResponse 401
            { status := "failed", message := some "Unauthorized" })) []) := by
  constructor
  · intro himp
    unfold GateHandler
    rw [htrust, himp]
  · intro himp hver
    unfold GateHandler
    rw [htrust, himp]
    simp only [hver, Bool.false_eq_true, if_false]
    rfl

/-- Witness for C3's amended statement: a trusted row with undecodable key
bytes makes the handler fault. -/
theorem C3_witness :
    GateHandler oracleMalformedKey envDemo [{ id := 1, key := "pkA", trusted := 1 }]
        { signature := "sig", action := "OPEN", publicKey := "pkA" } 0 0 downstream200
      = .thrownFault :=
  (C3_malformed_input_behavior oracleMalformedKey envDemo _ _ 0 0 downstream200
      { id := 1, key := "pkA", trusted := 1 } { spki := [] } (by decide)).1 rfl

/-- C4 counterexample: the nonce is `Math.floor(Math.random() * 1000000000)`,
so it is not drawn from the full 32-bit space — no draw can ever produce
the 32-bit value 4294967295 (or anything at or above 10^9). -/
theorem C4_counterexample :
    ¬ ∀ t : ℤ, 0 ≤ t → t < 2 ^ 32 →
        ∃ rand : ℚ, 0 ≤ rand ∧ rand < 1 ∧ mintNonce rand = t := by
  intro h
  obtain ⟨q, _, h1, he⟩ := h 4294967295 (by norm_num) (by norm_num)
  have hlt : mintNonce q < 1000000000 := by
    unfold mintNonce
    refine Int.floor_lt.mpr ?_
    push_cast
    calc q * 1000000000 < 1 * 1000000000 := by
          exact mul_lt_mul_of_pos_right h1 (by norm_num)
      _ = 1000000000 := one_mul _
  rw [he] at hlt
  norm_num at hlt

/-- C4 (amended): every minted nonce is `⌊rand * 10^9⌋` for the random draw
`rand ∈ [0,1)`: a nonnegative integer strictly below 1000000000 (hence
representable in 32 bits but not spanning the full 32-bit space), drawn
fresh per command — `mintValue` takes no counter or prior state. -/
theorem C4_nonce_range (rand : ℚ) (h0 : 0 ≤ rand) (h1 : rand < 1)
    (o : CryptoOracle) (action : String) (nowMs : Nat) :
    0 ≤ mintNonce rand ∧ mintNonce rand < 1000000000 ∧
    mintNonce rand < 2 ^ 32 ∧
    (mintValue o action nowMs rand).nonce = mintNonce rand := by
  have hnn : 0 ≤ mintNonce rand := by
    unfold mintNonce
    exact Int.floor_nonneg.mpr (by positivity)
  have hlt : mintNonce rand < 1000000000 := by
    unfold mintNonce
    refine Int.floor_lt.mpr ?_
    push_cast
    calc rand * 1000000000 < 1 * 1000000000 := by
          exact mul_lt_mul_of_pos_right h1 (by norm_num)
      _ = 1000000000 := one_mul _
  exact ⟨hnn, hlt, by omega, rfl⟩

/-- Witness for C4's amended statement at the draw `rand = 1/2`. -/
theorem C4_witness :
    0 ≤ mintNonce (1 / 2) ∧ mintNonce (1 / 2) < 1000000000 ∧
    mintNonce (1 / 2) < 2 ^ 32 ∧
    (mintValue oracleAllValid "OPEN" 0 (1 / 2)).nonce = mintNonce (1 / 2) :=
  C4_nonce_range (1 / 2) (by norm_num) (by norm_num) oracleAllValid "OPEN" 0

/-- C5: the minted expiry is `setMinutes(getMinutes() + 1)` on the creation
time, which is exactly one minute (60000 ms) after it — strictly later by
the configured window — and the minted envelope's `expiry` field is the
ISO rendering of that timestamp. -/
theorem C5_expiry_one_minute (nowMs : Nat) (o : CryptoOracle)
    (action : String) (rand : ℚ) (env : Env) (d : DownstreamResponse) :
    gateExpiryMs nowMs = nowMs + 60000 ∧
    nowMs < gateExpiryMs nowMs ∧
    (mintValue o action nowMs rand).expiry = o.toISOString (nowMs + 60000) ∧
    (SendToGate o env action nowMs rand d).dispatched.map
        (fun q => q.value.expiry) = [o.toISOString (nowMs + 60000)] := by
  have h : gateExpiryMs nowMs = nowMs + 60000 := by
    unfold gateExpiryMs jsSetMinutes jsGetMinutes
    omega
  refine ⟨h, by omega, ?_, ?_⟩
  · unfold mintValue
    rw [h]
  · unfold SendToGate
    simp only [List.map_cons, List.map_nil]
    unfold mintValue
    rw [h]

/-- C6: `SendToGate` issues exactly one outbound request; when the
downstream status is a transport-level success (`response.ok`), the caller
gets `200 {"status":"success","message":"Gate action <ACTION> sent
successfully"}`, and on any non-success status the downstream response is
returned unmodified. -/
theorem C6_dispatch_result (o : CryptoOracle) (env : Env) (action : String)
    (nowMs : Nat) (rand : ℚ) (d : DownstreamResponse) :
    (SendToGate o env action nowMs rand d).response =
      (if d.ok then
        WorkerResponse.minted (NewJsonResponse 200
          { status := "success"
            message := some ("Gate action " ++ action ++ " sent successfully") })
      else .passthrough d) ∧
    (SendToGate o env action nowMs rand d).dispatched.length = 1 := by
  exact ⟨rfl, rfl⟩

/-- C7: the `crypto.subtle.verify` call issued by `GateHandler` uses the
RSASSA-PKCS1-v1_5 scheme with SHA-256 (the hash fixed at key import), the
signature bytes as transmitted, and as message exactly the UTF-8 bytes of
the action string with no added framing; its boolean result alone decides
between dispatching and the generic 401. -/
theorem C7_verify_scheme_and_message (o : CryptoOracle) (env : Env)
    (table : PublicKeysTable) (p : DoorRequestPayload) (nowMs : Nat)
    (rand : ℚ) (d : DownstreamResponse) (r : PublicKeyRow) (k : RsaKey)
    (htrust : findFirstTrusted table p.publicKey = some r)
    (himport : o.importKeySpki (utf8Encode p.publicKey) = some k) :
    (gateVerifyCall p k).messageBytes = utf8Encode p.action ∧
    (gateVerifyCall p k).algorithmName = "RSASSA-PKCS1-v1_5" ∧
    (gateVerifyCall p k).hash = "SHA-256" ∧
    (gateVerifyCall p k).signatureBytes = utf8Encode p.signature ∧
    GateHandler o env table p nowMs rand d =
      (if o.verify (gateVerifyCall p k) then
        HandlerOutcome.returned (SendToGate o env p.action nowMs rand d).response
          (SendToGate o env p.action nowMs rand d).dispatched
      else .returned (.minted GetUnauthorizedResponse) []) := by
  refine ⟨rfl, rfl, rfl, rfl, ?_⟩
  unfold GateHandler
  rw [htrust, himport]

/-- Witness for C7 at a concrete trusted request. -/
theorem C7_witness :
    (gateVerifyCall { signature := "sig", action := "OPEN", publicKey := "pkA" }
        { spki := utf8Encode "pkA" }).messageBytes = utf8Encode "OPEN" ∧
    (gateVerifyCall { signature := "sig", action := "OPEN", publicKey := "pkA" }
        { spki := utf8Encode "pkA" }).algorithmName = "RSASSA-PKCS1-v1_5" ∧
    (gateVerifyCall { signature := "sig", action := "OPEN", publicKey := "pkA" }
        { spki := utf8Encode "pkA" }).hash = "SHA-256" ∧
    (gateVerifyCall { signature := "sig", action := "OPEN", publicKey := "pkA" }
        { spki := utf8Encode "pkA" }).signatureBytes = utf8Encode "sig" ∧
    GateHandler oracleAllValid envDemo [{ id := 1, key := "pkA", trusted := 1 }]
        { signature := "sig", action := "OPEN", publicKey := "pkA" } 0 0 downstream200 =
      (if oracleAllValid.verify (gateVerifyCall
          { signature := "sig", action := "OPEN", publicKey := "pkA" }
          { spki := utf8Encode "pkA" }) then
        HandlerOutcome.returned
          (SendToGate oracleAllValid envDemo "OPEN" 0 0 downstream200).response
          (SendToGate oracleAllValid envDemo "OPEN" 0 0 downstream200).dispatched
      else .returned (.minted GetUnauthorizedResponse) []) :=
  C7_verify_scheme_and_message oracleAllValid envDemo _ _ 0 0 downstream200
    { id := 1, key := "pkA", trusted := 1 } { spki := utf8Encode "pkA" }
    (by decide) rfl

/-- C8 counterexample: the string "FOO" is not a `DoorAction` value, yet a
request carrying it from a trusted key whose signature verifies is not
rejected — the unrecognized action is forwarded verbatim to the gate
endpoint, because `request.json()` performs no runtime validation of the
TypeScript enum type. -/
theorem C8_counterexample :
    isDoorAction "FOO" = false ∧
    (GateHandler oracleAllValid envDemo [{ id := 1, key := "pkA", trusted := 1 }]
        { signature := "sig", action := "FOO", publicKey := "pkA" } 0 0
        downstream200).dispatches.map (fun q => q.value.action) = ["FOO"] :=
  ⟨rfl, rfl⟩

/-- C8 (amended): `GateHandler` performs no runtime validation of the
action field: for an arbitrary action string (recognized as a `DoorAction`
member or not), whenever the trust lookup and signature verification
succeed, the action is forwarded verbatim in the dispatched payload. -/
theorem C8_action_forwarded_unvalidated (o : CryptoOracle) (env : Env)
    (table : PublicKeysTable) (p : DoorRequestPayload) (nowMs : Nat)
    (rand : ℚ) (d : DownstreamResponse) (r : PublicKeyRow) (k : RsaKey)
    (htrust : findFirstTrusted table p.publicKey = some r)
    (himport : o.importKeySpki (utf8Encode p.publicKey) = some k)
    (hver : o.verify (gateVerifyCall p k) = true) :
    (GateHandler o env table p nowMs rand d).dispatches.map
        (fun q => q.value.action) = [p.action] := by
  have h1 : GateHandler o env table p nowMs rand d =
      HandlerOutcome.returned (SendToGate o env p.action nowMs rand d).response
        (SendToGate o env p.action nowMs rand d).dispatched := by
    unfold GateHandler
    rw [htrust, himport]
    exact if_pos hver
  rw [h1]
  rfl

/-- Witness for C8's amended statement: the unrecognized action "FOO"
passes through. -/
theorem C8_witness :
    (GateHandler oracleAllValid envDemo [{ id := 1, key := "pkA", trusted := 1 }]
        { signature := "sig", action := "FOO", publicKey := "pkA" } 0 0
        downstream200).dispatches.map (fun q => q.value.action) = ["FOO"] :=
  C8_action_forwarded_unvalidated oracleAllValid envDemo _ _ 0 0 downstream200
    { id := 1, key := "pkA", trusted := 1 } { spki := utf8Encode "pkA" }
    (by decide) rfl rfl

/-- C9: in any environment other than `DEVELOPMENT`, the router answers
GET, DELETE and PATCH `/publicKey` and PUT `/table` with the 403
"Not allowed in production" response; yet POST `/publicKey` is delegated to
`PublicKeyPostHandler` in every environment, and that handler inserts an
unseen key with `trusted = toInt(false) = 0`. -/
theorem C9_admin_ops_gated (e : Env) (he : e.ENVIRONMENT ≠ "DEVELOPMENT") :
    workerFetch "/publicKey" "GET" e = .immediate GetNotProductionResponse ∧
    workerFetch "/publicKey" "DELETE" e = .immediate GetNotProductionResponse ∧
    workerFetch "/publicKey" "PATCH" e = .immediate GetNotProductionResponse ∧
    workerFetch "/table" "PUT" e = .immediate GetNotProductionResponse ∧
    GetNotProductionResponse = NewJsonResponse 403
      { status := "failed", message := some "Not allowed in production" } ∧
    (∀ e2 : Env, workerFetch "/publicKey" "POST" e2 = .publicKeyPost) ∧
    (∀ (table : PublicKeysTable) (recivedKey : String) (freshId : Nat),
      table.find? (fun r => r.key == recivedKey) = none →
      (PublicKeyPostHandler table recivedKey freshId).1
        = table ++ [{ id := freshId, key := recivedKey, trusted := 0 }]) := by
  refine ⟨?_, ?_, ?_, ?_, rfl, ?_, ?_⟩
  · unfold workerFetch
    rw [if_pos rfl, if_neg (by decide), if_pos rfl, if_pos he]
  · unfold workerFetch
    rw [if_pos rfl, if_neg (by decide), if_neg (by decide), if_pos rfl, if_pos he]
  · unfold workerFetch
    rw [if_pos rfl, if_neg (by decide), if_neg (by decide), if_neg (by decide),
      if_pos rfl, if_pos he]
  · unfold workerFetch
    rw [if_neg (by decide), if_pos rfl, if_pos he]
  · intro e2
    unfold workerFetch
    rw [if_pos rfl, if_pos rfl]
  · intro table recivedKey freshId hfind
    unfold PublicKeyPostHandler
    rw [hfind]
    rfl

/-- Witness for C9 in the concrete `PRODUCTION` environment. -/
theorem C9_witness :
    envDemo.ENVIRONMENT ≠ "DEVELOPMENT" ∧
    workerFetch "/publicKey" "GET" envDemo = .immediate GetNotProductionResponse ∧
    workerFetch "/publicKey" "POST" envDemo = .publicKeyPost :=
  ⟨by decide, (C9_admin_ops_gated envDemo (by decide)).1,
    (C9_admin_ops_gated envDemo (by decide)).2.2.2.2.2.1 envDemo⟩

/-- Mapping the per-row update over rows none of which hold the targeted
key leaves the list unchanged. -/
theorem map_update_id (updateTo : KeyStore) :
    ∀ l : PublicKeysTable, (∀ r ∈ l, r.key ≠ updateTo.key) →
      l.map (fun r =>
        if r.key == updateTo.key then
          { r with trusted := toInt updateTo.trusted, key := updateTo.key }
        else r) = l
  | [], _ => rfl
  | a :: l, h => by
    simp only [List.map_cons]
    rw [if_neg (by simp only [beq_iff_eq]; exact h a (List.mem_cons_self a l)),
      map_update_id updateTo l (fun r hr => h r (List.mem_cons_of_mem a hr))]

/-- C10: PATCH `/publicKey` runs the UPDATE with no existence check and
unconditionally answers 200 `{"status":"success","message":"Key updated"}`;
when no stored row carries the supplied key, the store is left unchanged
while success is still reported. -/
theorem C10_update_success_without_existence_check (table : PublicKeysTable)
    (updateTo : KeyStore) :
    (PublicKeyUpdateHandler table updateTo).2
      = NewJsonResponse 200 { status := "success", message := some "Key updated" } ∧
    ((∀ r ∈ table, r.key ≠ updateTo.key) →
      (PublicKeyUpdateHandler table updateTo).1 = table) := by
  refine ⟨rfl, fun h => ?_⟩
  exact map_update_id updateTo table h

/-- Witness for C10: updating a key absent from a one-row store reports
success and leaves the store unchanged. -/
theorem C10_witness :
    (PublicKeyUpdateHandler [{ id := 1, key := "pkA", trusted := 0 }]
        { key := "pkB", trusted := true }).2
      = NewJsonResponse 200 { status := "success", message := some "Key updated" } ∧
    (PublicKeyUpdateHandler [{ id := 1, key := "pkA", trusted := 0 }]
        { key := "pkB", trusted := true }).1
      = [{ id := 1, key := "pkA", trusted := 0 }] :=
  ⟨(C10_update_success_without_existence_check _ _).1,
    (C10_update_success_without_existence_check _ _).2 (by decide)⟩
